import Mathlib

/-!
Verification of the quadrilateral constraint solver (`src/geometry/`).

Embedding conventions:
* `f64` values are modelled as exact real numbers (`ℝ`); the solver's
  control flow only inspects `Option`-structure and order comparisons, so
  the exact-real model mirrors the code's branch structure faithfully.
* side lengths are `i64` micrometers, modelled as `ℤ`.
* Rust's `f64::round` rounds half away from zero while Mathlib's `round`
  rounds half up; the two agree on every nonnegative value with
  fractional part other than 1/2, in particular on all distances and on
  every half-integer-free input appearing below.
* Rust `String` errors are modelled by the inductive `CalcError`, one
  constructor per distinct `format!` message in the source; the side name
  inside a closure-mismatch message is modelled by the enum `SideName`.
* the mutation of `&mut self` is modelled by explicit state passing: a
  method returning `Result<(), String>` becomes a function
  `Quadrilateral → Option CalcError × Quadrilateral` returning the error
  (if any) together with the state as it is left by the call.
-/

open Real

/-- 2D point, coordinates in micrometers (`types.rs`, `Point`; `f64`
modelled as `ℝ`). -/
structure Point where
  x : ℝ
  y : ℝ

/-- The central data model (`types.rs`, `Quadrilateral`): the source
array `vertices: [Point; 4]` is modelled by the four fields
`v0 v1 v2 v3` (A, B, C, D), sides are optional `i64` micrometers,
angles optional `f64` degrees. -/
structure Quadrilateral where
  v0 : Point
  v1 : Point
  v2 : Point
  v3 : Point
  side_ab_um : Option ℤ
  side_bc_um : Option ℤ
  side_cd_um : Option ℤ
  side_da_um : Option ℤ
  angle_a : Option ℝ
  angle_b : Option ℝ
  angle_c : Option ℝ
  angle_d : Option ℝ

/-- Which side a closure-mismatch error is about (the `name: &str`
argument of `validate_length_um`, modelled as an enum). -/
inductive SideName where
  | AB | BC | CD | DA
deriving DecidableEq

/-- The distinct error messages the solver can produce (`Err(format!(..))`
in the source), one constructor per distinct message, carrying the data
interpolated into the message. -/
inductive CalcError where
  | insufficientConstraints (sides_given angles_given : ℕ)
  | angleSumInvalid (sum : ℝ)
  | invalidDerivedAngle (value : ℝ)
  | unsupportedCombination
  | geometricConflict
  | closureMismatch (name : SideName) (calculated_um expected_um : ℤ)

/-- Source `utils.rs`, `distance_um`: euclidean distance of two points, rounded
to integer micrometers. -/
noncomputable def distance_um (p1 p2 : Point) : ℤ :=
  let dx := p2.x - p1.x
  let dy := p2.y - p1.y
  let dist := Real.sqrt (dx * dx + dy * dy)
  round dist

/-- Rust's `f64::atan2`: `y.atan2(x)` is the argument of the complex
number `x + y·I`, in `(-π, π]`. -/
noncomputable def atan2 (y x : ℝ) : ℝ := Complex.arg ⟨x, y⟩

/-- Source `utils.rs`, `calculate_interior_angle`: interior angle at `vertex`
between its neighbours, in degrees, folded to the non-reflex value. -/
noncomputable def calculate_interior_angle (prev vertex next : Point) : ℝ :=
  let v1_x := prev.x - vertex.x
  let v1_y := prev.y - vertex.y
  let v2_x := next.x - vertex.x
  let v2_y := next.y - vertex.y
  let dot := v1_x * v2_x + v1_y * v2_y
  let cross := v1_x * v2_y - v1_y * v2_x
  let angle_rad := atan2 cross dot
  let angle_deg := |angle_rad| * 180 / π
  if angle_deg > 180 then 360 - angle_deg else angle_deg

/-- Source `utils.rs`, `find_circle_intersection`: intersection of the circle of
radius `radius_um` around `center1` with the circle of radius
`radius2_um` around `center2`, choosing the candidate with larger `y`. -/
noncomputable def find_circle_intersection (center1 : Point) (radius_um : ℝ)
    (center2 : Point) (radius2_um : ℝ) : Except CalcError Point :=
  let dx := center2.x - center1.x
  let dy := center2.y - center1.y
  let d := Real.sqrt (dx * dx + dy * dy)
  if d > radius_um + radius2_um ∨ d < |radius_um - radius2_um| then
    .error .geometricConflict
  else
    let a := (radius_um * radius_um - radius2_um * radius2_um + d * d) / (2 * d)
    let h := Real.sqrt (radius_um * radius_um - a * a)
    let px := center1.x + a * dx / d
    let py := center1.y + a * dy / d
    let p1 : Point := ⟨px + h * dy / d, py - h * dx / d⟩
    let p2 : Point := ⟨px - h * dy / d, py + h * dx / d⟩
    .ok (if p1.y > p2.y then p1 else p2)

namespace Quadrilateral

/-- Source `types.rs`, `Quadrilateral::new`: all vertices at the origin, all
eight optional fields unset. -/
def new : Quadrilateral :=
  { v0 := ⟨0, 0⟩, v1 := ⟨0, 0⟩, v2 := ⟨0, 0⟩, v3 := ⟨0, 0⟩
    side_ab_um := none, side_bc_um := none
    side_cd_um := none, side_da_um := none
    angle_a := none, angle_b := none, angle_c := none, angle_d := none }

/-- Source `types.rs`, `mm_to_um`: `(mm * 1000.0).round() as i64`. -/
noncomputable def mm_to_um (mm : ℝ) : ℤ := round (mm * 1000)

/-- Source `types.rs`, `um_to_mm`: `um as f64 / 1000.0`. -/
noncomputable def um_to_mm (um : ℤ) : ℝ := (um : ℝ) / 1000

/-- Source `types.rs`, `get_side_length_um`: side length recomputed from the
vertices; any index outside `0..=3` falls into the `_ => 0` arm. -/
noncomputable def get_side_length_um (q : Quadrilateral) (side : ℕ) : ℤ :=
  match side with
  | 0 => distance_um q.v0 q.v1
  | 1 => distance_um q.v1 q.v2
  | 2 => distance_um q.v2 q.v3
  | 3 => distance_um q.v3 q.v0
  | _ => 0

/-- Source `types.rs`, `get_point_on_side`: linear interpolation along a side;
any index outside `0..=3` falls into the default arm `(v0, v1)`. -/
noncomputable def get_point_on_side (q : Quadrilateral) (side : ℕ) (ratio : ℝ) : Point :=
  let ends : Point × Point :=
    match side with
    | 0 => (q.v0, q.v1)
    | 1 => (q.v1, q.v2)
    | 2 => (q.v2, q.v3)
    | 3 => (q.v3, q.v0)
    | _ => (q.v0, q.v1)
  ⟨ends.1.x + (ends.2.x - ends.1.x) * ratio,
   ends.1.y + (ends.2.y - ends.1.y) * ratio⟩

/-- Source `validation.rs`, `has_adjacent_angles`: at least one adjacent pair of
angles (A+B, B+C, C+D, D+A) is given. -/
def has_adjacent_angles (q : Quadrilateral) : Bool :=
  (q.angle_a.isSome && q.angle_b.isSome) ||
  (q.angle_b.isSome && q.angle_c.isSome) ||
  (q.angle_c.isSome && q.angle_d.isSome) ||
  (q.angle_d.isSome && q.angle_a.isSome)

/-- Sum of the given angles, as the source computes it:
`angles.iter().filter_map(|&a| a).sum()`. -/
def angleSum (q : Quadrilateral) : ℝ :=
  ([q.angle_a, q.angle_b, q.angle_c, q.angle_d].filterMap id).sum

/-- Number of angle fields that are set. -/
def anglesGiven (q : Quadrilateral) : ℕ :=
  ([q.angle_a, q.angle_b, q.angle_c, q.angle_d].filter Option.isSome).length

/-- Number of side fields that are set. -/
def sidesGiven (q : Quadrilateral) : ℕ :=
  ([q.side_ab_um, q.side_bc_um, q.side_cd_um, q.side_da_um].filter Option.isSome).length

open scoped Classical in
/-- Source `validation.rs`, `calculate_missing_angles`: with all four angles the
sum must be within 0.5° of 360°; with exactly three the missing angle is
`360 − sum`, must lie strictly in `(0, 360)`, and is assigned to the
first unset angle in the order A, B, C, D; otherwise a no-op. -/
noncomputable def calculate_missing_angles (q : Quadrilateral) :
    Option CalcError × Quadrilateral :=
  let angles_given := q.anglesGiven
  if angles_given = 4 then
    let sum := q.angleSum
    if |sum - 360| > 0.5 then (some (.angleSumInvalid sum), q) else (none, q)
  else if angles_given = 3 then
    let sum := q.angleSum
    let missing := 360 - sum
    if missing ≤ 0 ∨ 360 ≤ missing then
      (some (.invalidDerivedAngle missing), q)
    else if q.angle_a.isNone then (none, { q with angle_a := some missing })
    else if q.angle_b.isNone then (none, { q with angle_b := some missing })
    else if q.angle_c.isNone then (none, { q with angle_c := some missing })
    else if q.angle_d.isNone then (none, { q with angle_d := some missing })
    else (none, q)
  else (none, q)

/-- Source `validation.rs`, `calculate_angles_from_vertices`: fill every still
unset angle from the final vertex positions (in the order A, B, C, D). -/
noncomputable def calculate_angles_from_vertices (q : Quadrilateral) : Quadrilateral :=
  let q := if q.angle_a.isNone then
    { q with angle_a := some (calculate_interior_angle q.v3 q.v0 q.v1) } else q
  let q := if q.angle_b.isNone then
    { q with angle_b := some (calculate_interior_angle q.v0 q.v1 q.v2) } else q
  let q := if q.angle_c.isNone then
    { q with angle_c := some (calculate_interior_angle q.v1 q.v2 q.v3) } else q
  let q := if q.angle_d.isNone then
    { q with angle_d := some (calculate_interior_angle q.v2 q.v3 q.v0) } else q
  q

/-- Source `validation.rs`, `validate_length_um`: tolerance is
`1.max((expected_um as f64 * 0.001) as i64)`.  The `as i64` cast
truncates toward zero, modelled by `Int.tdiv expected_um 1000`; for
`|expected_um| < 2^51` the `f64` computation is exact enough that the
truncated product equals this integer division. -/
def validate_length_um (name : SideName) (calculated_um expected_um : ℤ) :
    Except CalcError Unit :=
  let diff_um := |calculated_um - expected_um|
  let tolerance_um := max 1 (Int.tdiv expected_um 1000)
  if diff_um > tolerance_um then
    .error (.closureMismatch name calculated_um expected_um)
  else
    .ok ()

/-- Source `construction.rs`, `construct_from_ab_bc_da_angles_a_b` (3 sides
AB, BC, DA and angles A, B; side CD is derived or validated). -/
noncomputable def construct_from_ab_bc_da_angles_a_b (q : Quadrilateral) :
    Option CalcError × Quadrilateral :=
  let ab := ((q.side_ab_um.getD 0 : ℤ) : ℝ)
  let bc := ((q.side_bc_um.getD 0 : ℤ) : ℝ)
  let da := ((q.side_da_um.getD 0 : ℤ) : ℝ)
  let angle_a := q.angle_a.getD 0
  let angle_b := q.angle_b.getD 0
  let q := { q with v0 := ⟨0, 0⟩, v1 := ⟨ab, 0⟩ }
  let angle_a_rad := angle_a * π / 180
  let q := { q with v3 := ⟨da * Real.cos angle_a_rad, da * Real.sin angle_a_rad⟩ }
  let angle_b_rad := (180 - angle_b) * π / 180
  let q := { q with v2 := ⟨ab + bc * Real.cos angle_b_rad, bc * Real.sin angle_b_rad⟩ }
  let calculated_cd_um := distance_um q.v2 q.v3
  match q.side_cd_um with
  | some input_cd_um =>
    match validate_length_um .CD calculated_cd_um input_cd_um with
    | .error e => (some e, q)
    | .ok _ => (none, calculate_angles_from_vertices q)
  | none =>
    let q := { q with side_cd_um := some calculated_cd_um }
    (none, calculate_angles_from_vertices q)

/-- Source `construction.rs`, `construct_from_bc_cd_ab_angles_b_c` (3 sides
BC, CD, AB and angles B, C; side DA is derived or validated). -/
noncomputable def construct_from_bc_cd_ab_angles_b_c (q : Quadrilateral) :
    Option CalcError × Quadrilateral :=
  let bc := ((q.side_bc_um.getD 0 : ℤ) : ℝ)
  let cd := ((q.side_cd_um.getD 0 : ℤ) : ℝ)
  let ab := ((q.side_ab_um.getD 0 : ℤ) : ℝ)
  let angle_b := q.angle_b.getD 0
  let angle_c := q.angle_c.getD 0
  let q := { q with v1 := ⟨0, 0⟩, v2 := ⟨bc, 0⟩ }
  let angle_b_rad := angle_b * π / 180
  let q := { q with v0 := ⟨-ab * Real.cos angle_b_rad, ab * Real.sin angle_b_rad⟩ }
  let angle_c_rad := (180 - angle_c) * π / 180
  let q := { q with v3 := ⟨bc + cd * Real.cos angle_c_rad, cd * Real.sin angle_c_rad⟩ }
  let calculated_da_um := distance_um q.v3 q.v0
  match q.side_da_um with
  | some input_da_um =>
    match validate_length_um .DA calculated_da_um input_da_um with
    | .error e => (some e, q)
    | .ok _ => (none, calculate_angles_from_vertices q)
  | none =>
    let q := { q with side_da_um := some calculated_da_um }
    (none, calculate_angles_from_vertices q)

/-- Source `construction.rs`, `construct_from_cd_da_bc_angles_c_d` (3 sides
CD, DA, BC and angles C, D; side AB is derived or validated). -/
noncomputable def construct_from_cd_da_bc_angles_c_d (q : Quadrilateral) :
    Option CalcError × Quadrilateral :=
  let cd := ((q.side_cd_um.getD 0 : ℤ) : ℝ)
  let da := ((q.side_da_um.getD 0 : ℤ) : ℝ)
  let bc := ((q.side_bc_um.getD 0 : ℤ) : ℝ)
  let angle_c := q.angle_c.getD 0
  let angle_d := q.angle_d.getD 0
  let q := { q with v2 := ⟨0, 0⟩, v3 := ⟨cd, 0⟩ }
  let angle_c_rad := angle_c * π / 180
  let q := { q with v1 := ⟨-bc * Real.cos angle_c_rad, bc * Real.sin angle_c_rad⟩ }
  let angle_d_rad := (180 - angle_d) * π / 180
  let q := { q with v0 := ⟨cd + da * Real.cos angle_d_rad, da * Real.sin angle_d_rad⟩ }
  let calculated_ab_um := distance_um q.v0 q.v1
  match q.side_ab_um with
  | some input_ab_um =>
    match validate_length_um .AB calculated_ab_um input_ab_um with
    | .error e => (some e, q)
    | .ok _ => (none, calculate_angles_from_vertices q)
  | none =>
    let q := { q with side_ab_um := some calculated_ab_um }
    (none, calculate_angles_from_vertices q)

/-- Source `construction.rs`, `construct_from_da_ab_cd_angles_d_a` (3 sides
DA, AB, CD and angles D, A; side BC is derived or validated). -/
noncomputable def construct_from_da_ab_cd_angles_d_a (q : Quadrilateral) :
    Option CalcError × Quadrilateral :=
  let da := ((q.side_da_um.getD 0 : ℤ) : ℝ)
  let ab := ((q.side_ab_um.getD 0 : ℤ) : ℝ)
  let cd := ((q.side_cd_um.getD 0 : ℤ) : ℝ)
  let angle_d := q.angle_d.getD 0
  let angle_a := q.angle_a.getD 0
  let q := { q with v0 := ⟨0, 0⟩, v1 := ⟨ab, 0⟩ }
  let angle_a_rad := angle_a * π / 180
  let q := { q with v3 := ⟨da * Real.cos angle_a_rad, da * Real.sin angle_a_rad⟩ }
  let target_angle_d_rad := (180 - angle_d) * π / 180
  let q := { q with v2 := ⟨q.v3.x - cd * Real.cos target_angle_d_rad,
                           q.v3.y - cd * Real.sin target_angle_d_rad⟩ }
  let calculated_bc_um := distance_um q.v1 q.v2
  match q.side_bc_um with
  | some input_bc_um =>
    match validate_length_um .BC calculated_bc_um input_bc_um with
    | .error e => (some e, q)
    | .ok _ => (none, calculate_angles_from_vertices q)
  | none =>
    let q := { q with side_bc_um := some calculated_bc_um }
    (none, calculate_angles_from_vertices q)

/-- Source `construction.rs`, `construct_from_bc_cd_da_angles_b_c` (3 sides
BC, CD, DA and angles B, C; side AB is derived or validated;
`180.0_f64.to_radians()` is the constant π). -/
noncomputable def construct_from_bc_cd_da_angles_b_c (q : Quadrilateral) :
    Option CalcError × Quadrilateral :=
  let bc := ((q.side_bc_um.getD 0 : ℤ) : ℝ)
  let cd := ((q.side_cd_um.getD 0 : ℤ) : ℝ)
  let da := ((q.side_da_um.getD 0 : ℤ) : ℝ)
  let angle_b := q.angle_b.getD 0
  let angle_c := q.angle_c.getD 0
  let q := { q with v1 := ⟨0, 0⟩, v2 := ⟨bc, 0⟩ }
  let angle_c_rad := (180 - angle_c) * π / 180
  let q := { q with v3 := ⟨bc + cd * Real.cos angle_c_rad, cd * Real.sin angle_c_rad⟩ }
  let angle_b_rad := angle_b * π / 180
  let q := { q with v0 := ⟨-da * Real.cos (π - angle_b_rad),
                           -da * Real.sin (π - angle_b_rad)⟩ }
  let calculated_ab_um := distance_um q.v0 q.v1
  match q.side_ab_um with
  | some input_ab_um =>
    match validate_length_um .AB calculated_ab_um input_ab_um with
    | .error e => (some e, q)
    | .ok _ => (none, calculate_angles_from_vertices q)
  | none =>
    let q := { q with side_ab_um := some calculated_ab_um }
    (none, calculate_angles_from_vertices q)

/-- Source `construction.rs`, `construct_from_all_sides_angles_a_b` (all four
sides and angles A, B; side CD is cross-checked). -/
noncomputable def construct_from_all_sides_angles_a_b (q : Quadrilateral) :
    Option CalcError × Quadrilateral :=
  let ab := ((q.side_ab_um.getD 0 : ℤ) : ℝ)
  let bc := ((q.side_bc_um.getD 0 : ℤ) : ℝ)
  let angle_a := q.angle_a.getD 0
  let angle_b := q.angle_b.getD 0
  let da := ((q.side_da_um.getD 0 : ℤ) : ℝ)
  let q := { q with v0 := ⟨0, 0⟩, v1 := ⟨ab, 0⟩ }
  let angle_a_rad := angle_a * π / 180
  let q := { q with v3 := ⟨da * Real.cos angle_a_rad, da * Real.sin angle_a_rad⟩ }
  let angle_b_rad := (180 - angle_b) * π / 180
  let q := { q with v2 := ⟨ab + bc * Real.cos angle_b_rad, bc * Real.sin angle_b_rad⟩ }
  let calculated_cd_um := distance_um q.v2 q.v3
  match validate_length_um .CD calculated_cd_um (q.side_cd_um.getD 0) with
  | .error e => (some e, q)
  | .ok _ => (none, calculate_angles_from_vertices q)

/-- Source `construction.rs`, `construct_from_all_sides_angles_b_c` (all four
sides and angles B, C; side DA is cross-checked; the source compares
against `da as i64`, the round-trip of the stored integer). -/
noncomputable def construct_from_all_sides_angles_b_c (q : Quadrilateral) :
    Option CalcError × Quadrilateral :=
  let ab := ((q.side_ab_um.getD 0 : ℤ) : ℝ)
  let bc := ((q.side_bc_um.getD 0 : ℤ) : ℝ)
  let cd := ((q.side_cd_um.getD 0 : ℤ) : ℝ)
  let angle_b := q.angle_b.getD 0
  let angle_c := q.angle_c.getD 0
  let q := { q with v1 := ⟨0, 0⟩, v2 := ⟨bc, 0⟩ }
  let angle_b_rad := angle_b * π / 180
  let q := { q with v0 := ⟨-ab * Real.cos angle_b_rad, ab * Real.sin angle_b_rad⟩ }
  let angle_c_rad := (180 - angle_c) * π / 180
  let q := { q with v3 := ⟨bc + cd * Real.cos angle_c_rad, cd * Real.sin angle_c_rad⟩ }
  let calculated_da_um := distance_um q.v3 q.v0
  match validate_length_um .DA calculated_da_um (q.side_da_um.getD 0) with
  | .error e => (some e, q)
  | .ok _ => (none, calculate_angles_from_vertices q)

/-- Source `construction.rs`, `construct_from_all_sides_angles_c_d` (all four
sides and angles C, D; side AB is cross-checked). -/
noncomputable def construct_from_all_sides_angles_c_d (q : Quadrilateral) :
    Option CalcError × Quadrilateral :=
  let bc := ((q.side_bc_um.getD 0 : ℤ) : ℝ)
  let cd := ((q.side_cd_um.getD 0 : ℤ) : ℝ)
  let da := ((q.side_da_um.getD 0 : ℤ) : ℝ)
  let angle_c := q.angle_c.getD 0
  let angle_d := q.angle_d.getD 0
  let q := { q with v2 := ⟨0, 0⟩, v3 := ⟨cd, 0⟩ }
  let angle_c_rad := angle_c * π / 180
  let q := { q with v1 := ⟨-bc * Real.cos angle_c_rad, bc * Real.sin angle_c_rad⟩ }
  let angle_d_rad := (180 - angle_d) * π / 180
  let q := { q with v0 := ⟨cd + da * Real.cos angle_d_rad, da * Real.sin angle_d_rad⟩ }
  let calculated_ab_um := distance_um q.v0 q.v1
  match validate_length_um .AB calculated_ab_um (q.side_ab_um.getD 0) with
  | .error e => (some e, q)
  | .ok _ => (none, calculate_angles_from_vertices q)

/-- Source `construction.rs`, `construct_from_all_sides_angles_d_a` (all four
sides and angles D, A; side BC is cross-checked). -/
noncomputable def construct_from_all_sides_angles_d_a (q : Quadrilateral) :
    Option CalcError × Quadrilateral :=
  let ab := ((q.side_ab_um.getD 0 : ℤ) : ℝ)
  let cd := ((q.side_cd_um.getD 0 : ℤ) : ℝ)
  let da := ((q.side_da_um.getD 0 : ℤ) : ℝ)
  let angle_d := q.angle_d.getD 0
  let angle_a := q.angle_a.getD 0
  let q := { q with v3 := ⟨0, 0⟩, v0 := ⟨da, 0⟩ }
  let angle_d_rad := angle_d * π / 180
  let q := { q with v2 := ⟨-cd * Real.cos angle_d_rad, cd * Real.sin angle_d_rad⟩ }
  let angle_a_rad := (180 - angle_a) * π / 180
  let q := { q with v1 := ⟨da + ab * Real.cos angle_a_rad, ab * Real.sin angle_a_rad⟩ }
  let calculated_bc_um := distance_um q.v1 q.v2
  match validate_length_um .BC calculated_bc_um (q.side_bc_um.getD 0) with
  | .error e => (some e, q)
  | .ok _ => (none, calculate_angles_from_vertices q)

/-- Source `construction.rs`, `construct_from_all_sides_angle_a` (all four
sides, only angle A; vertex C found by circle intersection). -/
noncomputable def construct_from_all_sides_angle_a (q : Quadrilateral) :
    Option CalcError × Quadrilateral :=
  let ab := ((q.side_ab_um.getD 0 : ℤ) : ℝ)
  let bc := ((q.side_bc_um.getD 0 : ℤ) : ℝ)
  let cd := ((q.side_cd_um.getD 0 : ℤ) : ℝ)
  let da := ((q.side_da_um.getD 0 : ℤ) : ℝ)
  let angle_a := q.angle_a.getD 0
  let q := { q with v0 := ⟨0, 0⟩, v1 := ⟨ab, 0⟩ }
  let angle_a_rad := angle_a * π / 180
  let q := { q with v3 := ⟨da * Real.cos angle_a_rad, da * Real.sin angle_a_rad⟩ }
  match find_circle_intersection q.v1 bc q.v3 cd with
  | .error e => (some e, q)
  | .ok c_point =>
    let q := { q with v2 := c_point }
    (none, calculate_angles_from_vertices q)

/-- Source `construction.rs`, `construct_from_all_sides_angle_b` (all four
sides, only angle B; vertex D found by circle intersection). -/
noncomputable def construct_from_all_sides_angle_b (q : Quadrilateral) :
    Option CalcError × Quadrilateral :=
  let ab := ((q.side_ab_um.getD 0 : ℤ) : ℝ)
  let bc := ((q.side_bc_um.getD 0 : ℤ) : ℝ)
  let cd := ((q.side_cd_um.getD 0 : ℤ) : ℝ)
  let da := ((q.side_da_um.getD 0 : ℤ) : ℝ)
  let angle_b := q.angle_b.getD 0
  let q := { q with v1 := ⟨0, 0⟩, v0 := ⟨-ab, 0⟩ }
  let angle_b_rad := (180 - angle_b) * π / 180
  let q := { q with v2 := ⟨bc * Real.cos angle_b_rad, bc * Real.sin angle_b_rad⟩ }
  match find_circle_intersection q.v0 da q.v2 cd with
  | .error e => (some e, q)
  | .ok d_point =>
    let q := { q with v3 := d_point }
    (none, calculate_angles_from_vertices q)

/-- Source `construction.rs`, `construct_from_all_sides_angle_c` (all four
sides, only angle C; vertex A found by circle intersection). -/
noncomputable def construct_from_all_sides_angle_c (q : Quadrilateral) :
    Option CalcError × Quadrilateral :=
  let ab := ((q.side_ab_um.getD 0 : ℤ) : ℝ)
  let bc := ((q.side_bc_um.getD 0 : ℤ) : ℝ)
  let cd := ((q.side_cd_um.getD 0 : ℤ) : ℝ)
  let da := ((q.side_da_um.getD 0 : ℤ) : ℝ)
  let angle_c := q.angle_c.getD 0
  let q := { q with v2 := ⟨0, 0⟩, v1 := ⟨-bc, 0⟩ }
  let angle_c_rad := (180 - angle_c) * π / 180
  let q := { q with v3 := ⟨cd * Real.cos angle_c_rad, cd * Real.sin angle_c_rad⟩ }
  match find_circle_intersection q.v1 ab q.v3 da with
  | .error e => (some e, q)
  | .ok a_point =>
    let q := { q with v0 := a_point }
    (none, calculate_angles_from_vertices q)

/-- Source `construction.rs`, `construct_from_all_sides_angle_d` (all four
sides, only angle D; vertex B found by circle intersection). -/
noncomputable def construct_from_all_sides_angle_d (q : Quadrilateral) :
    Option CalcError × Quadrilateral :=
  let ab := ((q.side_ab_um.getD 0 : ℤ) : ℝ)
  let bc := ((q.side_bc_um.getD 0 : ℤ) : ℝ)
  let cd := ((q.side_cd_um.getD 0 : ℤ) : ℝ)
  let da := ((q.side_da_um.getD 0 : ℤ) : ℝ)
  let angle_d := q.angle_d.getD 0
  let q := { q with v3 := ⟨0, 0⟩, v2 := ⟨-cd, 0⟩ }
  let angle_d_rad := (180 - angle_d) * π / 180
  let q := { q with v0 := ⟨da * Real.cos angle_d_rad, da * Real.sin angle_d_rad⟩ }
  match find_circle_intersection q.v0 ab q.v2 bc with
  | .error e => (some e, q)
  | .ok b_point =>
    let q := { q with v1 := b_point }
    (none, calculate_angles_from_vertices q)

/-- Source `construction.rs`, `construct_quadrilateral`: the case dispatcher.
The early-`return` chain of the source is modelled as a chain of
if-then-else with the enclosing all-four-sides condition repeated in
each of the first eight guards. -/
noncomputable def construct_quadrilateral (q : Quadrilateral) :
    Option CalcError × Quadrilateral :=
  let has_ab := q.side_ab_um.isSome
  let has_bc := q.side_bc_um.isSome
  let has_cd := q.side_cd_um.isSome
  let has_da := q.side_da_um.isSome
  let has_angle_a := q.angle_a.isSome
  let has_angle_b := q.angle_b.isSome
  let has_angle_c := q.angle_c.isSome
  let has_angle_d := q.angle_d.isSome
  let all_sides := has_ab && has_bc && has_cd && has_da
  if all_sides && has_angle_a && has_angle_b then
    construct_from_all_sides_angles_a_b q
  else if all_sides && has_angle_b && has_angle_c then
    construct_from_all_sides_angles_b_c q
  else if all_sides && has_angle_c && has_angle_d then
    construct_from_all_sides_angles_c_d q
  else if all_sides && has_angle_d && has_angle_a then
    construct_from_all_sides_angles_d_a q
  else if all_sides && has_angle_a then
    construct_from_all_sides_angle_a q
  else if all_sides && has_angle_b then
    construct_from_all_sides_angle_b q
  else if all_sides && has_angle_c then
    construct_from_all_sides_angle_c q
  else if all_sides && has_angle_d then
    construct_from_all_sides_angle_d q
  else if has_ab && has_bc && has_da && !has_cd && has_angle_a && has_angle_b then
    construct_from_ab_bc_da_angles_a_b q
  else if has_bc && has_cd && has_ab && !has_da && has_angle_b && has_angle_c then
    construct_from_bc_cd_ab_angles_b_c q
  else if has_cd && has_da && has_bc && !has_ab && has_angle_c && has_angle_d then
    construct_from_cd_da_bc_angles_c_d q
  else if has_da && has_ab && has_cd && !has_bc && has_angle_d && has_angle_a then
    construct_from_da_ab_cd_angles_d_a q
  else if has_bc && has_cd && has_da && !has_ab && has_angle_b && has_angle_c then
    construct_from_bc_cd_da_angles_b_c q
  else
    (some .unsupportedCombination, q)

/-- Source `validation.rs`, `Quadrilateral::calculate`: the solve entry point.
Counts given sides and angles, rejects insufficient input, completes a
missing angle, then dispatches to a construction strategy. -/
noncomputable def calculate (q : Quadrilateral) : Option CalcError × Quadrilateral :=
  let sides_given := q.sidesGiven
  let angles_given := q.anglesGiven
  let is_solvable :=
    if sides_given = 4 ∧ 1 ≤ angles_given ∧ angles_given ≤ 4 then true
    else if sides_given = 3 ∧ 2 ≤ angles_given ∧ angles_given ≤ 4 then
      q.has_adjacent_angles
    else false
  if ¬ is_solvable then
    (some (.insufficientConstraints sides_given angles_given), q)
  else
    match calculate_missing_angles q with
    | (some e, q1) => (some e, q1)
    | (none, q1) => construct_quadrilateral q1

end Quadrilateral

/-!
Finiteness-tracking model of `f64` for `find_circle_intersection`
(`utils.rs`): a value is either finite, carried exactly, or non-finite
(IEEE-754 NaN or an infinity), marked `none`.  Every arithmetic
operation of the source is mirrored: operations on finite operands stay
finite (no quantity in the inputs considered here can overflow),
division by zero and the square root of a negative number are
non-finite, any operation on a non-finite operand is non-finite, and an
order comparison involving a non-finite value is false (as for NaN).
-/

/-- An `f64` value: `some r` is the finite value `r`, `none` is
non-finite (NaN/∞). -/
abbrev FP := Option ℝ

def fadd : FP → FP → FP
  | some a, some b => some (a + b)
  | _, _ => none

def fsub : FP → FP → FP
  | some a, some b => some (a - b)
  | _, _ => none

def fmul : FP → FP → FP
  | some a, some b => some (a * b)
  | _, _ => none

open scoped Classical in
noncomputable def fdiv : FP → FP → FP
  | some a, some b => if b = 0 then none else some (a / b)
  | _, _ => none

open scoped Classical in
noncomputable def fsqrt : FP → FP
  | some a => if a < 0 then none else some (Real.sqrt a)
  | none => none

def fabs : FP → FP
  | some a => some |a|
  | none => none

/-- Comparison `x > y` on `f64`: false whenever either operand is NaN. -/
def fgt : FP → FP → Prop
  | some a, some b => b < a
  | _, _ => False

/-- Comparison `x < y` on `f64`: false whenever either operand is NaN. -/
def flt : FP → FP → Prop
  | some a, some b => a < b
  | _, _ => False

/-- A 2D point with `f64` coordinates in the finiteness-tracking model. -/
structure FPoint where
  x : FP
  y : FP

open scoped Classical in
/-- Source `utils.rs`, `find_circle_intersection`, in the finiteness-tracking
model of `f64`: every arithmetic step of the source is mirrored on `FP`
values. -/
noncomputable def find_circle_intersection_fp (center1 : FPoint) (radius_um : FP)
    (center2 : FPoint) (radius2_um : FP) : Except CalcError FPoint :=
  let dx := fsub center2.x center1.x
  let dy := fsub center2.y center1.y
  let d := fsqrt (fadd (fmul dx dx) (fmul dy dy))
  if fgt d (fadd radius_um radius2_um) ∨ flt d (fabs (fsub radius_um radius2_um)) then
    .error .geometricConflict
  else
    let a := fdiv (fadd (fsub (fmul radius_um radius_um) (fmul radius2_um radius2_um))
                        (fmul d d))
                  (fmul (some 2) d)
    let h := fsqrt (fsub (fmul radius_um radius_um) (fmul a a))
    let px := fadd center1.x (fdiv (fmul a dx) d)
    let py := fadd center1.y (fdiv (fmul a dy) d)
    let p1 : FPoint := ⟨fadd px (fdiv (fmul h dy) d), fsub py (fdiv (fmul h dx) d)⟩
    let p2 : FPoint := ⟨fsub px (fdiv (fmul h dy) d), fadd py (fdiv (fmul h dx) d)⟩
    .ok (if fgt p1.y p2.y then p1 else p2)

/-! ### Helper lemmas -/

/-- The only error `validate_length_um` can produce is the
closure-mismatch error about its own arguments. -/
theorem validate_length_um_error_shape {n : SideName} {c x : ℤ} {e : CalcError}
    (h : Quadrilateral.validate_length_um n c x = .error e) :
    e = .closureMismatch n c x := by
  unfold Quadrilateral.validate_length_um at h
  simp only [] at h
  split at h
  · exact ((Except.error.injEq _ _).mp h).symm
  · exact absurd h (by simp)

/-- The only error `find_circle_intersection` can produce is the
geometric-conflict error. -/
theorem find_circle_intersection_error_shape {c1 c2 : Point} {r1 r2 : ℝ}
    {e : CalcError} (h : find_circle_intersection c1 r1 c2 r2 = .error e) :
    e = .geometricConflict := by
  unfold find_circle_intersection at h
  simp only [] at h
  split at h
  · exact ((Except.error.injEq _ _).mp h).symm
  · exact absurd h (by simp)

/-! ### C4 — closure tolerance -/

/-- C4, counterexample to the claim as stated: for computed 2001 µm and
expected 1999 µm the absolute difference (2 µm) does not exceed
`max(1, round(expected × 0.001)) = 2`, so the claim predicts success,
yet the code rejects the pair: its tolerance truncates
`expected × 0.001` to 1 instead of rounding it to 2. -/
theorem C4_counterexample :
    Quadrilateral.validate_length_um .CD 2001 1999 =
      .error (.closureMismatch .CD 2001 1999) ∧
    ¬ (|(2001 : ℤ) - 1999| > max 1 (round ((1999 : ℚ) * 0.001))) := by
  constructor
  · rfl
  · rw [round_eq]
    norm_num

/-- C4 (amended): `validate_length_um` succeeds exactly when the absolute
difference between computed and expected is at most
`max(1 µm, trunc(expected × 0.001))`, where the product is truncated
toward zero (the `as i64` cast) rather than rounded. -/
theorem C4_closure_tolerance (n : SideName) (calculated_um expected_um : ℤ)
    (h : 0 < expected_um) :
    Quadrilateral.validate_length_um n calculated_um expected_um = .ok () ↔
      |calculated_um - expected_um| ≤ max 1 ⌊(expected_um : ℚ) * 0.001⌋ := by
  have htol : ⌊(expected_um : ℚ) * 0.001⌋ = Int.tdiv expected_um 1000 := by
    rw [Int.tdiv_eq_ediv (by omega) (by omega)]
    rw [show ((expected_um : ℚ) * 0.001) = (expected_um : ℚ) / ((1000 : ℕ) : ℚ) by
      push_cast; ring]
    exact Rat.floor_intCast_div_natCast expected_um 1000
  rw [htol]
  unfold Quadrilateral.validate_length_um
  simp only []
  split
  · rename_i hgt
    constructor
    · intro hcontra
      exact absurd hcontra (by simp)
    · intro hle
      exact absurd hle (not_le.mpr hgt)
  · rename_i hle
    constructor
    · intro _
      exact not_lt.mp hle
    · intro _
      rfl

/-- C4 witness: the amended tolerance admits computed 2000 µm against
expected 1999 µm (difference 1 ≤ max(1, 1)). -/
theorem C4_witness :
    (0 : ℤ) < 1999 ∧
    (Quadrilateral.validate_length_um .AB 2000 1999 = .ok () ↔
      |(2000 : ℤ) - 1999| ≤ max 1 ⌊((1999 : ℤ) : ℚ) * 0.001⌋) :=
  ⟨by norm_num, C4_closure_tolerance .AB 2000 1999 (by norm_num)⟩

/-! ### C8 — millimeter/micrometer round trip -/

/-- C8: for any millimeter value aligned to micrometer granularity
(`x * 1000` is an integer), `um_to_mm (mm_to_um x) = x` exactly. -/
theorem C8_roundtrip_mm_um (x : ℝ) (n : ℤ) (h : x * 1000 = n) :
    Quadrilateral.um_to_mm (Quadrilateral.mm_to_um x) = x := by
  unfold Quadrilateral.mm_to_um Quadrilateral.um_to_mm
  rw [h, round_intCast, ← h]
  ring

/-- C8 witness: the round trip recovers 0.123 mm exactly. -/
theorem C8_roundtrip_mm_um_witness :
    (0.123 : ℝ) * 1000 = ((123 : ℤ) : ℝ) ∧
    Quadrilateral.um_to_mm (Quadrilateral.mm_to_um (0.123 : ℝ)) = 0.123 :=
  ⟨by norm_num, C8_roundtrip_mm_um 0.123 123 (by norm_num)⟩

/-! ### C10 — accessor totality on out-of-range indices -/

/-- C10: for every side index outside `0..=3`, `get_side_length_um`
returns 0 and `get_point_on_side` interpolates along side AB (vertices
A and B); both functions are total, so no index or ratio can panic. -/
theorem C10_accessors_total (q : Quadrilateral) (side : ℕ) (ratio : ℝ)
    (h : 4 ≤ side) :
    q.get_side_length_um side = 0 ∧
    q.get_point_on_side side ratio =
      ⟨q.v0.x + (q.v1.x - q.v0.x) * ratio, q.v0.y + (q.v1.y - q.v0.y) * ratio⟩ := by
  obtain ⟨k, rfl⟩ : ∃ k, side = k + 4 := ⟨side - 4, by omega⟩
  exact ⟨rfl, rfl⟩

/-- C10 witness: index 5 on the freshly created quadrilateral. -/
theorem C10_accessors_total_witness :
    Quadrilateral.new.get_side_length_um 5 = 0 ∧
    Quadrilateral.new.get_point_on_side 5 (1/2) = ⟨0 + (0 - 0) * (1/2), 0 + (0 - 0) * (1/2)⟩ :=
  C10_accessors_total Quadrilateral.new 5 (1/2) (by norm_num)

/-! ### C9 — division by zero for coincident circle centers -/

/-- C9: with coincident centers (distance 0) and equal positive radii,
`find_circle_intersection` does not report the geometric conflict but
returns `Ok`, and both coordinates of the returned point are non-finite
(NaN): the chord offset `a` divides `0` by `2·d = 0`.  Stated in the
finiteness-tracking `f64` model `find_circle_intersection_fp`. -/
theorem C9_coincident_centers_nan :
    find_circle_intersection_fp ⟨some 0, some 0⟩ (some 100) ⟨some 0, some 0⟩ (some 100) =
      .ok ⟨none, none⟩ := by
  unfold find_circle_intersection_fp
  simp only [fadd, fsub, fmul, fdiv, fsqrt, fabs, fgt, flt]
  norm_num [Real.sqrt_zero]

/-! ### C5 — circle-circle intersection -/

/-- C5: `find_circle_intersection` reports a geometric conflict exactly
when the center distance `d` exceeds `r1 + r2` or is below `|r1 − r2|`;
otherwise it returns one of the two candidate points obtained from
`a = (r1² − r2² + d²)/(2d)` and `h = √(r1² − a²)`, namely the one with
the larger y-coordinate.  The geometric quantities of the claim are
named by the defining equations `hdx … hp2`. -/
theorem C5_find_circle_intersection (center1 : Point) (r1 : ℝ)
    (center2 : Point) (r2 : ℝ) (dx dy d a h px py : ℝ) (p1 p2 : Point)
    (hdx : dx = center2.x - center1.x) (hdy : dy = center2.y - center1.y)
    (hd : d = Real.sqrt (dx * dx + dy * dy))
    (ha : a = (r1 ^ 2 - r2 ^ 2 + d ^ 2) / (2 * d))
    (hh : h = Real.sqrt (r1 ^ 2 - a ^ 2))
    (hpx : px = center1.x + a * dx / d) (hpy : py = center1.y + a * dy / d)
    (hp1 : p1 = ⟨px + h * dy / d, py - h * dx / d⟩)
    (hp2 : p2 = ⟨px - h * dy / d, py + h * dx / d⟩) :
    (find_circle_intersection center1 r1 center2 r2 = .error .geometricConflict ↔
      d > r1 + r2 ∨ d < |r1 - r2|) ∧
    ∀ p, find_circle_intersection center1 r1 center2 r2 = .ok p →
      (p = p1 ∨ p = p2) ∧ p.y = max p1.y p2.y := by
  subst hp1 hp2 hpx hpy hh ha hd hdy hdx
  unfold find_circle_intersection
  simp only []
  split
  · rename_i hc
    refine ⟨⟨fun _ => hc, fun _ => rfl⟩, ?_⟩
    intro p hp
    exact absurd hp (by simp)
  · rename_i hc
    refine ⟨⟨fun hcontra => absurd hcontra (by simp), fun hcond => absurd hcond hc⟩, ?_⟩
    intro p hp
    rw [Except.ok.injEq] at hp
    subst hp
    set D := Real.sqrt ((center2.x - center1.x) * (center2.x - center1.x) +
      (center2.y - center1.y) * (center2.y - center1.y)) with hD
    have hH : Real.sqrt (r1 * r1 -
        (r1 * r1 - r2 * r2 + D * D) / (2 * D) * ((r1 * r1 - r2 * r2 + D * D) / (2 * D))) =
        Real.sqrt (r1 ^ 2 - ((r1 ^ 2 - r2 ^ 2 + D ^ 2) / (2 * D)) ^ 2) := by
      congr 1
      ring
    have hA : (r1 * r1 - r2 * r2 + D * D) / (2 * D) =
        (r1 ^ 2 - r2 ^ 2 + D ^ 2) / (2 * D) := by ring
    rw [hH, hA]
    split
    · rename_i hgt
      exact ⟨Or.inl rfl, (max_eq_left (le_of_lt hgt)).symm⟩
    · rename_i hng
      exact ⟨Or.inr rfl, (max_eq_right (not_lt.mp hng)).symm⟩

/-- C5 witness: circles of radius 5 around (0,0) and (6,0); center
distance 6, intersection candidates (3, −4) and (3, 4). -/
theorem C5_find_circle_intersection_witness :
    (find_circle_intersection ⟨0, 0⟩ 5 ⟨6, 0⟩ 5 = .error .geometricConflict ↔
      (6 : ℝ) > 5 + 5 ∨ (6 : ℝ) < |5 - 5|) ∧
    ∀ p, find_circle_intersection ⟨0, 0⟩ 5 ⟨6, 0⟩ 5 = .ok p →
      (p = ⟨3, -4⟩ ∨ p = ⟨3, 4⟩) ∧ p.y = max (-4 : ℝ) 4 := by
  have h36 : Real.sqrt ((6 : ℝ) * 6 + 0 * 0) = 6 := by
    rw [show ((6 : ℝ) * 6 + 0 * 0) = 6 ^ 2 by norm_num]
    exact Real.sqrt_sq (by norm_num)
  have h16 : Real.sqrt ((5 : ℝ) ^ 2 - 3 ^ 2) = 4 := by
    rw [show ((5 : ℝ) ^ 2 - 3 ^ 2) = 4 ^ 2 by norm_num]
    exact Real.sqrt_sq (by norm_num)
  exact C5_find_circle_intersection ⟨0, 0⟩ 5 ⟨6, 0⟩ 5 6 0 6 3 4 3 0 ⟨3, -4⟩ ⟨3, 4⟩
    (by norm_num) (by norm_num) h36.symm (by norm_num)
    h16.symm (by norm_num) (by norm_num)
    (by norm_num [Point.mk.injEq]) (by norm_num [Point.mk.injEq])

/-! ### Counting lemmas -/

theorem anglesGiven_le_four (q : Quadrilateral) : q.anglesGiven ≤ 4 :=
  le_trans (List.length_filter_le _ _) (by simp)

theorem anglesGiven_eq_four_iff (q : Quadrilateral) :
    q.anglesGiven = 4 ↔
      q.angle_a.isSome = true ∧ q.angle_b.isSome = true ∧
      q.angle_c.isSome = true ∧ q.angle_d.isSome = true := by
  rcases q with ⟨v0, v1, v2, v3, sab, sbc, scd, sda, a, b, c, d⟩
  cases a <;> cases b <;> cases c <;> cases d <;>
    simp [Quadrilateral.anglesGiven, List.filter]

theorem sidesGiven_eq_four_iff (q : Quadrilateral) :
    q.sidesGiven = 4 ↔
      q.side_ab_um.isSome = true ∧ q.side_bc_um.isSome = true ∧
      q.side_cd_um.isSome = true ∧ q.side_da_um.isSome = true := by
  rcases q with ⟨v0, v1, v2, v3, sab, sbc, scd, sda, a, b, c, d⟩
  cases sab <;> cases sbc <;> cases scd <;> cases sda <;>
    simp [Quadrilateral.sidesGiven, List.filter]

theorem sidesGiven_eq_three_iff (q : Quadrilateral) :
    q.sidesGiven = 3 ↔
      ((q.side_ab_um = none ∧ q.side_bc_um.isSome = true ∧
        q.side_cd_um.isSome = true ∧ q.side_da_um.isSome = true) ∨
       (q.side_ab_um.isSome = true ∧ q.side_bc_um = none ∧
        q.side_cd_um.isSome = true ∧ q.side_da_um.isSome = true) ∨
       (q.side_ab_um.isSome = true ∧ q.side_bc_um.isSome = true ∧
        q.side_cd_um = none ∧ q.side_da_um.isSome = true) ∨
       (q.side_ab_um.isSome = true ∧ q.side_bc_um.isSome = true ∧
        q.side_cd_um.isSome = true ∧ q.side_da_um = none)) := by
  rcases q with ⟨v0, v1, v2, v3, sab, sbc, scd, sda, a, b, c, d⟩
  cases sab <;> cases sbc <;> cases scd <;> cases sda <;>
    simp [Quadrilateral.sidesGiven, List.filter]

/-! ### C3 — missing-angle completion -/

open Quadrilateral

/-- C3: `calculate_missing_angles` behaves as follows.  With four given
angles it fails exactly when the sum deviates from 360° by more than
0.5°, and never changes the state.  With exactly three given angles, for
`missing = 360 − sum` it fails exactly when `missing` is not strictly
between 0° and 360°, changes nothing on failure, and otherwise assigns
`missing` to the first unset angle in the fixed order A, B, C, D.  With
two or fewer given angles it changes nothing and succeeds. -/
theorem C3_calculate_missing_angles (q : Quadrilateral) :
    (q.anglesGiven = 4 →
      (calculate_missing_angles q).2 = q ∧
      ((calculate_missing_angles q).1 ≠ none ↔ |q.angleSum - 360| > 0.5)) ∧
    (q.anglesGiven = 3 →
      ((calculate_missing_angles q).1 ≠ none ↔
        ¬(0 < 360 - q.angleSum ∧ 360 - q.angleSum < 360)) ∧
      ((calculate_missing_angles q).1 ≠ none → (calculate_missing_angles q).2 = q) ∧
      (0 < 360 - q.angleSum ∧ 360 - q.angleSum < 360 →
        (q.angle_a = none →
          (calculate_missing_angles q).2 = { q with angle_a := some (360 - q.angleSum) }) ∧
        (q.angle_a ≠ none → q.angle_b = none →
          (calculate_missing_angles q).2 = { q with angle_b := some (360 - q.angleSum) }) ∧
        (q.angle_a ≠ none → q.angle_b ≠ none → q.angle_c = none →
          (calculate_missing_angles q).2 = { q with angle_c := some (360 - q.angleSum) }) ∧
        (q.angle_a ≠ none → q.angle_b ≠ none → q.angle_c ≠ none → q.angle_d = none →
          (calculate_missing_angles q).2 = { q with angle_d := some (360 - q.angleSum) }))) ∧
    (q.anglesGiven ≤ 2 → calculate_missing_angles q = (none, q)) := by
  refine ⟨?_, ?_, ?_⟩
  · intro h4
    unfold calculate_missing_angles
    simp only []
    rw [if_pos h4]
    split
    · rename_i hgt
      exact ⟨rfl, iff_of_true (by simp) hgt⟩
    · rename_i hle
      exact ⟨rfl, iff_of_false (by simp) hle⟩
  · intro h3
    have hne4 : ¬ q.anglesGiven = 4 := by omega
    unfold calculate_missing_angles
    simp only []
    rw [if_neg hne4, if_pos h3]
    split
    · rename_i hbad
      have hnot : ¬(0 < 360 - q.angleSum ∧ 360 - q.angleSum < 360) := by
        rcases hbad with hb | hb
        · exact fun hc => absurd hc.1 (not_lt.mpr hb)
        · exact fun hc => absurd hc.2 (not_lt.mpr hb)
      exact ⟨iff_of_true (by simp) hnot, fun _ => rfl, fun hg => absurd hg hnot⟩
    · rename_i hok
      have hcond : 0 < 360 - q.angleSum ∧ 360 - q.angleSum < 360 := by
        rcases not_or.mp hok with ⟨hc1, hc2⟩
        exact ⟨lt_of_not_le hc1, lt_of_not_le hc2⟩
      have h1 : (if q.angle_a.isNone = true then
          ((none : Option CalcError), { q with angle_a := some (360 - q.angleSum) })
        else if q.angle_b.isNone = true then
          (none, { q with angle_b := some (360 - q.angleSum) })
        else if q.angle_c.isNone = true then
          (none, { q with angle_c := some (360 - q.angleSum) })
        else if q.angle_d.isNone = true then
          (none, { q with angle_d := some (360 - q.angleSum) })
        else (none, q)).1 = none := by
        repeat' split
        all_goals rfl
      refine ⟨iff_of_false (by rw [h1]; simp) (not_not_intro hcond),
        fun hne => absurd h1 hne, fun _ => ⟨?_, ?_, ?_, ?_⟩⟩
      · intro hA
        simp [hA]
      · intro hA hB
        simp [Option.isNone_iff_eq_none, hA, hB]
      · intro hA hB hC
        simp [Option.isNone_iff_eq_none, hA, hB, hC]
      · intro hA hB hC hD
        simp [Option.isNone_iff_eq_none, hA, hB, hC, hD]
  · intro h2
    have hne4 : ¬ q.anglesGiven = 4 := by omega
    have hne3 : ¬ q.anglesGiven = 3 := by omega
    unfold calculate_missing_angles
    simp only []
    rw [if_neg hne4, if_neg hne3]

/-- Concrete input for exercising angle completion: angles A = 100°,
B = 120°, C = 80° given, angle D unset, no sides. -/
def exampleThreeAngles : Quadrilateral :=
  { v0 := ⟨0, 0⟩, v1 := ⟨0, 0⟩, v2 := ⟨0, 0⟩, v3 := ⟨0, 0⟩
    side_ab_um := none, side_bc_um := none
    side_cd_um := none, side_da_um := none
    angle_a := some 100, angle_b := some 120, angle_c := some 80, angle_d := none }

/-- C3 witness: with angles 100°, 120°, 80° given, completion succeeds
and assigns 60° to angle D (the first unset angle). -/
theorem C3_calculate_missing_angles_witness :
    (calculate_missing_angles exampleThreeAngles).1 = none ∧
    (calculate_missing_angles exampleThreeAngles).2.angle_d = some 60 := by
  have h3 : exampleThreeAngles.anglesGiven = 3 := rfl
  have hsum : exampleThreeAngles.angleSum = 300 := by
    simp [Quadrilateral.angleSum, exampleThreeAngles]
    norm_num
  have h := (C3_calculate_missing_angles exampleThreeAngles).2.1 h3
  have hcond : 0 < 360 - exampleThreeAngles.angleSum ∧
      360 - exampleThreeAngles.angleSum < 360 := by
    rw [hsum]
    norm_num
  have hnone : (calculate_missing_angles exampleThreeAngles).1 = none := by
    have hnn : ¬ (calculate_missing_angles exampleThreeAngles).1 ≠ none :=
      fun hne => (h.1.mp hne) hcond
    exact not_ne_iff.mp hnn
  refine ⟨hnone, ?_⟩
  have hassign := (h.2.2 hcond).2.2.2 (by simp [exampleThreeAngles])
    (by simp [exampleThreeAngles]) (by simp [exampleThreeAngles]) rfl
  rw [hassign, hsum]
  norm_num

/-! ### Structural lemmas about the construction pipeline -/

/-- After `calculate_angles_from_vertices` every angle field is set, and
every angle that was already set keeps its value. -/
theorem calculate_angles_from_vertices_spec (q : Quadrilateral) :
    ((calculate_angles_from_vertices q).angle_a.isSome = true ∧
     (calculate_angles_from_vertices q).angle_b.isSome = true ∧
     (calculate_angles_from_vertices q).angle_c.isSome = true ∧
     (calculate_angles_from_vertices q).angle_d.isSome = true) ∧
    (q.angle_a.isSome = true → (calculate_angles_from_vertices q).angle_a = q.angle_a) ∧
    (q.angle_b.isSome = true → (calculate_angles_from_vertices q).angle_b = q.angle_b) ∧
    (q.angle_c.isSome = true → (calculate_angles_from_vertices q).angle_c = q.angle_c) ∧
    (q.angle_d.isSome = true → (calculate_angles_from_vertices q).angle_d = q.angle_d) := by
  rcases q with ⟨v0, v1, v2, v3, sab, sbc, scd, sda, a, b, c, d⟩
  cases a <;> cases b <;> cases c <;> cases d <;>
    simp [calculate_angles_from_vertices]

/-- Outcome shape shared by all construction strategies: either success
with a state produced by `calculate_angles_from_vertices` from an
intermediate state whose angle fields are those of the input, or an
error (geometric conflict, unsupported combination, or closure
mismatch) with all four side fields unchanged. -/
def ConstructorCases (q : Quadrilateral) (r : Option CalcError × Quadrilateral) : Prop :=
  (∃ qm, r = (none, calculate_angles_from_vertices qm) ∧
      qm.angle_a = q.angle_a ∧ qm.angle_b = q.angle_b ∧
      qm.angle_c = q.angle_c ∧ qm.angle_d = q.angle_d) ∨
  (∃ e qe, r = (some e, qe) ∧
      (e = .geometricConflict ∨ e = .unsupportedCombination ∨
        ∃ n cv xv, e = .closureMismatch n cv xv) ∧
      qe.side_ab_um = q.side_ab_um ∧ qe.side_bc_um = q.side_bc_um ∧
      qe.side_cd_um = q.side_cd_um ∧ qe.side_da_um = q.side_da_um)

theorem construct_from_ab_bc_da_angles_a_b_cases (q : Quadrilateral) :
    ConstructorCases q (construct_from_ab_bc_da_angles_a_b q) := by
  unfold ConstructorCases construct_from_ab_bc_da_angles_a_b
  simp only []
  repeat' split
  all_goals first
    | exact Or.inl ⟨_, rfl, rfl, rfl, rfl, rfl⟩
    | (rename_i e heq
       rcases validate_length_um_error_shape heq with rfl
       exact Or.inr ⟨_, _, rfl, Or.inr (Or.inr ⟨_, _, _, rfl⟩), rfl, rfl, rfl, rfl⟩)

theorem construct_from_bc_cd_ab_angles_b_c_cases (q : Quadrilateral) :
    ConstructorCases q (construct_from_bc_cd_ab_angles_b_c q) := by
  unfold ConstructorCases construct_from_bc_cd_ab_angles_b_c
  simp only []
  repeat' split
  all_goals first
    | exact Or.inl ⟨_, rfl, rfl, rfl, rfl, rfl⟩
    | (rename_i e heq
       rcases validate_length_um_error_shape heq with rfl
       exact Or.inr ⟨_, _, rfl, Or.inr (Or.inr ⟨_, _, _, rfl⟩), rfl, rfl, rfl, rfl⟩)

theorem construct_from_cd_da_bc_angles_c_d_cases (q : Quadrilateral) :
    ConstructorCases q (construct_from_cd_da_bc_angles_c_d q) := by
  unfold ConstructorCases construct_from_cd_da_bc_angles_c_d
  simp only []
  repeat' split
  all_goals first
    | exact Or.inl ⟨_, rfl, rfl, rfl, rfl, rfl⟩
    | (rename_i e heq
       rcases validate_length_um_error_shape heq with rfl
       exact Or.inr ⟨_, _, rfl, Or.inr (Or.inr ⟨_, _, _, rfl⟩), rfl, rfl, rfl, rfl⟩)

theorem construct_from_da_ab_cd_angles_d_a_cases (q : Quadrilateral) :
    ConstructorCases q (construct_from_da_ab_cd_angles_d_a q) := by
  unfold ConstructorCases construct_from_da_ab_cd_angles_d_a
  simp only []
  repeat' split
  all_goals first
    | exact Or.inl ⟨_, rfl, rfl, rfl, rfl, rfl⟩
    | (rename_i e heq
       rcases validate_length_um_error_shape heq with rfl
       exact Or.inr ⟨_, _, rfl, Or.inr (Or.inr ⟨_, _, _, rfl⟩), rfl, rfl, rfl, rfl⟩)

theorem construct_from_bc_cd_da_angles_b_c_cases (q : Quadrilateral) :
    ConstructorCases q (construct_from_bc_cd_da_angles_b_c q) := by
  unfold ConstructorCases construct_from_bc_cd_da_angles_b_c
  simp only []
  repeat' split
  all_goals first
    | exact Or.inl ⟨_, rfl, rfl, rfl, rfl, rfl⟩
    | (rename_i e heq
       rcases validate_length_um_error_shape heq with rfl
       exact Or.inr ⟨_, _, rfl, Or.inr (Or.inr ⟨_, _, _, rfl⟩), rfl, rfl, rfl, rfl⟩)

theorem construct_from_all_sides_angles_a_b_cases (q : Quadrilateral) :
    ConstructorCases q (construct_from_all_sides_angles_a_b q) := by
  unfold ConstructorCases construct_from_all_sides_angles_a_b
  simp only []
  repeat' split
  all_goals first
    | exact Or.inl ⟨_, rfl, rfl, rfl, rfl, rfl⟩
    | (rename_i e heq
       rcases validate_length_um_error_shape heq with rfl
       exact Or.inr ⟨_, _, rfl, Or.inr (Or.inr ⟨_, _, _, rfl⟩), rfl, rfl, rfl, rfl⟩)

theorem construct_from_all_sides_angles_b_c_cases (q : Quadrilateral) :
    ConstructorCases q (construct_from_all_sides_angles_b_c q) := by
  unfold ConstructorCases construct_from_all_sides_angles_b_c
  simp only []
  repeat' split
  all_goals first
    | exact Or.inl ⟨_, rfl, rfl, rfl, rfl, rfl⟩
    | (rename_i e heq
       rcases validate_length_um_error_shape heq with rfl
       exact Or.inr ⟨_, _, rfl, Or.inr (Or.inr ⟨_, _, _, rfl⟩), rfl, rfl, rfl, rfl⟩)

theorem construct_from_all_sides_angles_c_d_cases (q : Quadrilateral) :
    ConstructorCases q (construct_from_all_sides_angles_c_d q) := by
  unfold ConstructorCases construct_from_all_sides_angles_c_d
  simp only []
  repeat' split
  all_goals first
    | exact Or.inl ⟨_, rfl, rfl, rfl, rfl, rfl⟩
    | (rename_i e heq
       rcases validate_length_um_error_shape heq with rfl
       exact Or.inr ⟨_, _, rfl, Or.inr (Or.inr ⟨_, _, _, rfl⟩), rfl, rfl, rfl, rfl⟩)

theorem construct_from_all_sides_angles_d_a_cases (q : Quadrilateral) :
    ConstructorCases q (construct_from_all_sides_angles_d_a q) := by
  unfold ConstructorCases construct_from_all_sides_angles_d_a
  simp only []
  repeat' split
  all_goals first
    | exact Or.inl ⟨_, rfl, rfl, rfl, rfl, rfl⟩
    | (rename_i e heq
       rcases validate_length_um_error_shape heq with rfl
       exact Or.inr ⟨_, _, rfl, Or.inr (Or.inr ⟨_, _, _, rfl⟩), rfl, rfl, rfl, rfl⟩)

theorem construct_from_all_sides_angle_a_cases (q : Quadrilateral) :
    ConstructorCases q (construct_from_all_sides_angle_a q) := by
  unfold ConstructorCases construct_from_all_sides_angle_a
  simp only []
  repeat' split
  all_goals first
    | exact Or.inl ⟨_, rfl, rfl, rfl, rfl, rfl⟩
    | (rename_i e heq
       rcases find_circle_intersection_error_shape heq with rfl
       exact Or.inr ⟨_, _, rfl, Or.inl rfl, rfl, rfl, rfl, rfl⟩)

theorem construct_from_all_sides_angle_b_cases (q : Quadrilateral) :
    ConstructorCases q (construct_from_all_sides_angle_b q) := by
  unfold ConstructorCases construct_from_all_sides_angle_b
  simp only []
  repeat' split
  all_goals first
    | exact Or.inl ⟨_, rfl, rfl, rfl, rfl, rfl⟩
    | (rename_i e heq
       rcases find_circle_intersection_error_shape heq with rfl
       exact Or.inr ⟨_, _, rfl, Or.inl rfl, rfl, rfl, rfl, rfl⟩)

theorem construct_from_all_sides_angle_c_cases (q : Quadrilateral) :
    ConstructorCases q (construct_from_all_sides_angle_c q) := by
  unfold ConstructorCases construct_from_all_sides_angle_c
  simp only []
  repeat' split
  all_goals first
    | exact Or.inl ⟨_, rfl, rfl, rfl, rfl, rfl⟩
    | (rename_i e heq
       rcases find_circle_intersection_error_shape heq with rfl
       exact Or.inr ⟨_, _, rfl, Or.inl rfl, rfl, rfl, rfl, rfl⟩)

theorem construct_from_all_sides_angle_d_cases (q : Quadrilateral) :
    ConstructorCases q (construct_from_all_sides_angle_d q) := by
  unfold ConstructorCases construct_from_all_sides_angle_d
  simp only []
  repeat' split
  all_goals first
    | exact Or.inl ⟨_, rfl, rfl, rfl, rfl, rfl⟩
    | (rename_i e heq
       rcases find_circle_intersection_error_shape heq with rfl
       exact Or.inr ⟨_, _, rfl, Or.inl rfl, rfl, rfl, rfl, rfl⟩)

/-- Closure property: `ConstructorCases` is preserved by an if-then-else whenever both
branches satisfy it. -/
theorem constructorCases_ite {q : Quadrilateral} {c : Prop} [Decidable c]
    {r1 r2 : Option CalcError × Quadrilateral}
    (h1 : c → ConstructorCases q r1) (h2 : ¬c → ConstructorCases q r2) :
    ConstructorCases q (if c then r1 else r2) := by
  split
  · exact h1 ‹c›
  · exact h2 ‹¬c›

/-- The dispatcher fall-through outcome satisfies `ConstructorCases`. -/
theorem constructorCases_unsupported (q : Quadrilateral) :
    ConstructorCases q (some .unsupportedCombination, q) := by
  unfold ConstructorCases
  exact Or.inr ⟨_, _, rfl, Or.inr (Or.inl rfl), rfl, rfl, rfl, rfl⟩

/-- Every outcome of the case dispatcher has the shared constructor
shape. -/
theorem construct_quadrilateral_cases (q : Quadrilateral) :
    ConstructorCases q (construct_quadrilateral q) := by
  unfold construct_quadrilateral
  dsimp only []
  repeat' first
    | exact construct_from_all_sides_angles_a_b_cases q
    | exact construct_from_all_sides_angles_b_c_cases q
    | exact construct_from_all_sides_angles_c_d_cases q
    | exact construct_from_all_sides_angles_d_a_cases q
    | exact construct_from_all_sides_angle_a_cases q
    | exact construct_from_all_sides_angle_b_cases q
    | exact construct_from_all_sides_angle_c_cases q
    | exact construct_from_all_sides_angle_d_cases q
    | exact construct_from_ab_bc_da_angles_a_b_cases q
    | exact construct_from_bc_cd_ab_angles_b_c_cases q
    | exact construct_from_cd_da_bc_angles_c_d_cases q
    | exact construct_from_da_ab_cd_angles_d_a_cases q
    | exact construct_from_bc_cd_da_angles_b_c_cases q
    | exact constructorCases_unsupported q
    | refine constructorCases_ite (fun _ => ?_) (fun _ => ?_)

/-- On failure `calculate_missing_angles` leaves the state unchanged,
and its error is an angle-sum or derived-angle error. -/
theorem calculate_missing_angles_error_spec (q : Quadrilateral) :
    ∀ e, (calculate_missing_angles q).1 = some e →
      ((∃ s, e = .angleSumInvalid s) ∨ (∃ v, e = .invalidDerivedAngle v)) ∧
      (calculate_missing_angles q).2 = q := by
  unfold calculate_missing_angles
  simp only []
  repeat' split
  all_goals first
    | exact fun e he => ⟨Or.inl ⟨_, ((Option.some.injEq _ _).mp he).symm⟩, rfl⟩
    | exact fun e he => ⟨Or.inr ⟨_, ((Option.some.injEq _ _).mp he).symm⟩, rfl⟩
    | exact fun e he => Option.noConfusion he

/-- When at least three angles are given and `calculate_missing_angles`
succeeds, the resulting state has all four angles set and their sum
within 0.5° of 360°. -/
theorem calculate_missing_angles_success_three_le (q q1 : Quadrilateral)
    (hge : 3 ≤ q.anglesGiven) (h : calculate_missing_angles q = (none, q1)) :
    (q1.angle_a.isSome = true ∧ q1.angle_b.isSome = true ∧
     q1.angle_c.isSome = true ∧ q1.angle_d.isSome = true) ∧
    |q1.angleSum - 360| ≤ 0.5 := by
  rcases q with ⟨v0, v1, v2, v3, sab, sbc, scd, sda, a, b, c, d⟩
  cases a <;> cases b <;> cases c <;> cases d <;>
    unfold calculate_missing_angles at h <;>
    norm_num [Quadrilateral.anglesGiven, List.filter] at h hge <;>
    split at h <;>
    injection h with h1 h2 <;>
    first
      | exact Option.noConfusion h1
      | (subst h2
         refine ⟨by simp, ?_⟩
         rename_i hle
         first
           | exact not_lt.mp hle
           | (simp only [Quadrilateral.angleSum, List.filterMap_cons, List.filterMap_nil,
                id_eq, List.sum_cons, List.sum_nil] at hle ⊢
              ring_nf at hle ⊢
              exact not_lt.mp hle)
           | (simp only [Quadrilateral.angleSum, List.filterMap_cons, List.filterMap_nil,
                id_eq, List.sum_cons, List.sum_nil]
              ring_nf
              norm_num))

theorem anglesGiven_pos_iff (q : Quadrilateral) :
    1 ≤ q.anglesGiven ↔
      (q.angle_a.isSome = true ∨ q.angle_b.isSome = true ∨
       q.angle_c.isSome = true ∨ q.angle_d.isSome = true) := by
  rcases q with ⟨v0, v1, v2, v3, sab, sbc, scd, sda, a, b, c, d⟩
  cases a <;> cases b <;> cases c <;> cases d <;>
    simp [Quadrilateral.anglesGiven, List.filter]

theorem has_adjacent_angles_iff (q : Quadrilateral) :
    q.has_adjacent_angles = true ↔
      ((q.angle_a.isSome = true ∧ q.angle_b.isSome = true) ∨
       (q.angle_b.isSome = true ∧ q.angle_c.isSome = true) ∨
       (q.angle_c.isSome = true ∧ q.angle_d.isSome = true) ∨
       (q.angle_d.isSome = true ∧ q.angle_a.isSome = true)) := by
  unfold has_adjacent_angles
  simp [Bool.or_eq_true, Bool.and_eq_true]
  tauto

/-- State lemma: `calculate_missing_angles` never touches the side fields. -/
theorem calculate_missing_angles_sides (q : Quadrilateral) :
    (calculate_missing_angles q).2.side_ab_um = q.side_ab_um ∧
    (calculate_missing_angles q).2.side_bc_um = q.side_bc_um ∧
    (calculate_missing_angles q).2.side_cd_um = q.side_cd_um ∧
    (calculate_missing_angles q).2.side_da_um = q.side_da_um := by
  unfold calculate_missing_angles
  simp only []
  repeat' split
  all_goals exact ⟨rfl, rfl, rfl, rfl⟩

/-- The angle sum only depends on the four angle fields. -/
theorem angleSum_congr {q q' : Quadrilateral}
    (ha : q'.angle_a = q.angle_a) (hb : q'.angle_b = q.angle_b)
    (hc : q'.angle_c = q.angle_c) (hd : q'.angle_d = q.angle_d) :
    q'.angleSum = q.angleSum := by
  unfold Quadrilateral.angleSum
  rw [ha, hb, hc, hd]

/-! ### C2 — solvability test -/

/-- C2: `calculate` rejects with the insufficient-constraints error
(reporting the side and angle counts) exactly when neither (a) all four
sides are set with at least one angle, nor (b) exactly three sides are
set with at least two angles including an adjacent pair. -/
theorem C2_insufficient_constraints (q : Quadrilateral) :
    (calculate q).1 = some (.insufficientConstraints q.sidesGiven q.anglesGiven) ↔
      ¬((q.side_ab_um.isSome = true ∧ q.side_bc_um.isSome = true ∧
         q.side_cd_um.isSome = true ∧ q.side_da_um.isSome = true ∧
         (q.angle_a.isSome = true ∨ q.angle_b.isSome = true ∨
          q.angle_c.isSome = true ∨ q.angle_d.isSome = true)) ∨
        (q.sidesGiven = 3 ∧ 2 ≤ q.anglesGiven ∧
         ((q.angle_a.isSome = true ∧ q.angle_b.isSome = true) ∨
          (q.angle_b.isSome = true ∧ q.angle_c.isSome = true) ∨
          (q.angle_c.isSome = true ∧ q.angle_d.isSome = true) ∨
          (q.angle_d.isSome = true ∧ q.angle_a.isSome = true)))) := by
  have hA_iff : (q.sidesGiven = 4 ∧ 1 ≤ q.anglesGiven ∧ q.anglesGiven ≤ 4) ↔
      (q.side_ab_um.isSome = true ∧ q.side_bc_um.isSome = true ∧
       q.side_cd_um.isSome = true ∧ q.side_da_um.isSome = true ∧
       (q.angle_a.isSome = true ∨ q.angle_b.isSome = true ∨
        q.angle_c.isSome = true ∨ q.angle_d.isSome = true)) := by
    constructor
    · rintro ⟨h4, h1, -⟩
      obtain ⟨ha, hb, hc, hd⟩ := (sidesGiven_eq_four_iff q).mp h4
      exact ⟨ha, hb, hc, hd, (anglesGiven_pos_iff q).mp h1⟩
    · rintro ⟨ha, hb, hc, hd, hang⟩
      exact ⟨(sidesGiven_eq_four_iff q).mpr ⟨ha, hb, hc, hd⟩,
        (anglesGiven_pos_iff q).mpr hang, anglesGiven_le_four q⟩
  by_cases hAB : ((q.side_ab_um.isSome = true ∧ q.side_bc_um.isSome = true ∧
         q.side_cd_um.isSome = true ∧ q.side_da_um.isSome = true ∧
         (q.angle_a.isSome = true ∨ q.angle_b.isSome = true ∨
          q.angle_c.isSome = true ∨ q.angle_d.isSome = true)) ∨
        (q.sidesGiven = 3 ∧ 2 ≤ q.anglesGiven ∧
         ((q.angle_a.isSome = true ∧ q.angle_b.isSome = true) ∨
          (q.angle_b.isSome = true ∧ q.angle_c.isSome = true) ∨
          (q.angle_c.isSome = true ∧ q.angle_d.isSome = true) ∨
          (q.angle_d.isSome = true ∧ q.angle_a.isSome = true))))
  · apply iff_of_false ?_ (not_not_intro hAB)
    have hsolv : (if q.sidesGiven = 4 ∧ 1 ≤ q.anglesGiven ∧ q.anglesGiven ≤ 4 then true
        else if q.sidesGiven = 3 ∧ 2 ≤ q.anglesGiven ∧ q.anglesGiven ≤ 4 then
          q.has_adjacent_angles
        else false) = true := by
      rcases hAB with hA | hB
      · rw [if_pos (hA_iff.mpr hA)]
      · have h3 : q.sidesGiven = 3 ∧ 2 ≤ q.anglesGiven ∧ q.anglesGiven ≤ 4 :=
          ⟨hB.1, hB.2.1, anglesGiven_le_four q⟩
        by_cases h4 : q.sidesGiven = 4 ∧ 1 ≤ q.anglesGiven ∧ q.anglesGiven ≤ 4
        · rw [if_pos h4]
        · rw [if_neg h4, if_pos h3]
          exact (has_adjacent_angles_iff q).mpr hB.2.2
    unfold calculate
    simp only []
    rw [if_neg (not_not_intro hsolv)]
    rcases hc : calculate_missing_angles q with ⟨o, q1⟩
    cases o with
    | some e =>
      dsimp only []
      intro hbad
      have hshape := (calculate_missing_angles_error_spec q e (by rw [hc])).1
      rcases hshape with ⟨s, rfl⟩ | ⟨v, rfl⟩ <;> simp at hbad
    | none =>
      dsimp only []
      have hcases := construct_quadrilateral_cases q1
      rcases hcases with ⟨qm, heq, -, -, -, -⟩ | ⟨e, qe, heq, hshape, -, -, -, -⟩
      · rw [heq]
        simp
      · rw [heq]
        intro hbad
        rcases hshape with rfl | rfl | ⟨n, cv, xv, rfl⟩ <;> simp at hbad
  · apply iff_of_true ?_ hAB
    have hnsolv : ¬ (if q.sidesGiven = 4 ∧ 1 ≤ q.anglesGiven ∧ q.anglesGiven ≤ 4 then true
        else if q.sidesGiven = 3 ∧ 2 ≤ q.anglesGiven ∧ q.anglesGiven ≤ 4 then
          q.has_adjacent_angles
        else false) = true := by
      intro hcontra
      by_cases h4 : q.sidesGiven = 4 ∧ 1 ≤ q.anglesGiven ∧ q.anglesGiven ≤ 4
      · exact hAB (Or.inl (hA_iff.mp h4))
      · rw [if_neg h4] at hcontra
        by_cases h3 : q.sidesGiven = 3 ∧ 2 ≤ q.anglesGiven ∧ q.anglesGiven ≤ 4
        · rw [if_pos h3] at hcontra
          exact hAB (Or.inr ⟨h3.1, h3.2.1, (has_adjacent_angles_iff q).mp hcontra⟩)
        · rw [if_neg h3] at hcontra
          simp at hcontra
    unfold calculate
    simp only []
    rw [if_pos hnsolv]

/-- C2 witness: the empty quadrilateral is rejected with the
insufficient-constraints error. -/
theorem C2_insufficient_constraints_witness :
    (calculate Quadrilateral.new).1 =
      some (.insufficientConstraints Quadrilateral.new.sidesGiven
        Quadrilateral.new.anglesGiven) := by
  refine (C2_insufficient_constraints Quadrilateral.new).mpr ?_
  rintro (⟨ha, -⟩ | ⟨h3, -⟩)
  · simp [Quadrilateral.new] at ha
  · simp [Quadrilateral.sidesGiven, Quadrilateral.new, List.filter] at h3

/-! ### C1 — atomicity of `calculate` -/

/-- C1 (amended): on a failed `calculate` the four side-length input
fields are unchanged (the angle fields and the vertices, however, may
have been modified; see the counterexample). -/
theorem C1_sides_unchanged_on_error (q : Quadrilateral) (e : CalcError)
    (q' : Quadrilateral) (h : calculate q = (some e, q')) :
    q'.side_ab_um = q.side_ab_um ∧ q'.side_bc_um = q.side_bc_um ∧
    q'.side_cd_um = q.side_cd_um ∧ q'.side_da_um = q.side_da_um := by
  unfold calculate at h
  simp only [] at h
  by_cases hs : (if q.sidesGiven = 4 ∧ 1 ≤ q.anglesGiven ∧ q.anglesGiven ≤ 4 then true
      else if q.sidesGiven = 3 ∧ 2 ≤ q.anglesGiven ∧ q.anglesGiven ≤ 4 then
        q.has_adjacent_angles
      else false) = true
  case neg =>
    rw [if_pos hs] at h
    injection h with h1 h2
    subst h2
    exact ⟨rfl, rfl, rfl, rfl⟩
  case pos =>
    rw [if_neg (not_not_intro hs)] at h
    rcases hc : calculate_missing_angles q with ⟨o, q1⟩
    rw [hc] at h
    have hsides := calculate_missing_angles_sides q
    rw [hc] at hsides
    cases o with
    | some e0 =>
      dsimp only [] at h
      injection h with h1 h2
      subst h2
      have hstate := (calculate_missing_angles_error_spec q e0 (by rw [hc])).2
      rw [hc] at hstate
      have hq : q1 = q := hstate
      rw [hq]
      exact ⟨rfl, rfl, rfl, rfl⟩
    | none =>
      dsimp only [] at h
      rcases construct_quadrilateral_cases q1 with
        ⟨qm, heq, -, -, -, -⟩ | ⟨e1, qe, heq, -, hs1, hs2, hs3, hs4⟩
      · rw [heq] at h
        exact absurd h (by simp)
      · rw [heq] at h
        injection h with h1 h2
        subst h2
        exact ⟨hs1.trans hsides.1, hs2.trans hsides.2.1,
          hs3.trans hsides.2.2.1, hs4.trans hsides.2.2.2⟩

/-! ### Exact trigonometric values used by the concrete runs -/

theorem deg90_eq : (90 : ℝ) * π / 180 = π / 2 := by ring

theorem cos_deg90 : Real.cos ((90 : ℝ) * π / 180) = 0 := by
  rw [deg90_eq, Real.cos_pi_div_two]

theorem sin_deg90 : Real.sin ((90 : ℝ) * π / 180) = 1 := by
  rw [deg90_eq, Real.sin_pi_div_two]

theorem deg270_eq : (270 : ℝ) * π / 180 = π + π / 2 := by ring

theorem cos_deg270 : Real.cos ((270 : ℝ) * π / 180) = 0 := by
  rw [deg270_eq, Real.cos_add]
  simp

theorem sin_deg270 : Real.sin ((270 : ℝ) * π / 180) = -1 := by
  rw [deg270_eq, Real.sin_add]
  simp

theorem degm90_eq : (180 - (270 : ℝ)) * π / 180 = -(π / 2) := by ring

theorem cos_degm90 : Real.cos ((180 - (270 : ℝ)) * π / 180) = 0 := by
  rw [degm90_eq, Real.cos_neg, Real.cos_pi_div_two]

theorem sin_degm90 : Real.sin ((180 - (270 : ℝ)) * π / 180) = -1 := by
  rw [degm90_eq, Real.sin_neg, Real.sin_pi_div_two]

/-- Concrete infeasible input: sides AB = DA = 100 mm but BC = CD = 1 mm,
angle A = 90°; the two circles that must intersect to place C are about
141 mm apart with radii of 1 mm each. -/
def exampleConflict : Quadrilateral :=
  { v0 := ⟨0, 0⟩, v1 := ⟨0, 0⟩, v2 := ⟨0, 0⟩, v3 := ⟨0, 0⟩
    side_ab_um := some 100000, side_bc_um := some 1000
    side_cd_um := some 1000, side_da_um := some 100000
    angle_a := some 90, angle_b := none, angle_c := none, angle_d := none }

/-- C1, counterexample: on `exampleConflict` the solver fails with the
geometric-conflict error, yet vertex B of the instance has been moved
from the origin to (100000, 0) — a failed `calculate` is observable, so
the operation is not atomic. -/
theorem C1_not_atomic_counterexample :
    (calculate exampleConflict).1 = some CalcError.geometricConflict ∧
    (calculate exampleConflict).2.v1 ≠ exampleConflict.v1 := by
  have hstep : calculate exampleConflict = construct_from_all_sides_angle_a exampleConflict :=
    rfl
  have hfci : find_circle_intersection (⟨100000, 0⟩ : Point) 1000
      (⟨0, 100000⟩ : Point) 1000 = .error .geometricConflict := by
    unfold find_circle_intersection
    simp only []
    rw [if_pos]
    refine Or.inl ?_
    rw [show (((0:ℝ) - 100000) * ((0:ℝ) - 100000) + (100000 - 0) * (100000 - 0)) =
      20000000000 by norm_num]
    rw [show ((1000:ℝ) + 1000) = 2000 by norm_num]
    exact (Real.lt_sqrt (by norm_num)).mpr (by norm_num)
  rw [hstep]
  unfold construct_from_all_sides_angle_a
  simp only [exampleConflict, Option.getD_some]
  rw [cos_deg90, sin_deg90]
  norm_num
  rw [hfci]
  constructor
  · rfl
  · simp [Point.mk.injEq]

/-- C1 witness: the empty quadrilateral fails with unchanged sides. -/
theorem C1_sides_unchanged_on_error_witness :
    calculate Quadrilateral.new =
      (some (CalcError.insufficientConstraints 0 0), Quadrilateral.new) ∧
    ((calculate Quadrilateral.new).2.side_ab_um = Quadrilateral.new.side_ab_um ∧
     (calculate Quadrilateral.new).2.side_bc_um = Quadrilateral.new.side_bc_um ∧
     (calculate Quadrilateral.new).2.side_cd_um = Quadrilateral.new.side_cd_um ∧
     (calculate Quadrilateral.new).2.side_da_um = Quadrilateral.new.side_da_um) := by
  have heval : calculate Quadrilateral.new =
      (some (CalcError.insufficientConstraints 0 0), Quadrilateral.new) := rfl
  refine ⟨heval, ?_⟩
  rw [heval]
  exact C1_sides_unchanged_on_error Quadrilateral.new _ _ heval

/-! ### C7 — angles after a successful solve -/

/-- C7 (amended): after a successful `calculate` all four angle fields
are set; and when at least three angles were user-given before the call
the final angle sum is within 0.5° of 360°.  (For fewer given angles the
derived angles are not checked against the 360° law — see the
counterexample.) -/
theorem C7_angles_after_success (q q' : Quadrilateral)
    (h : calculate q = (none, q')) :
    (q'.angle_a.isSome = true ∧ q'.angle_b.isSome = true ∧
     q'.angle_c.isSome = true ∧ q'.angle_d.isSome = true) ∧
    (3 ≤ q.anglesGiven → |q'.angleSum - 360| ≤ 0.5) := by
  unfold calculate at h
  simp only [] at h
  by_cases hs : (if q.sidesGiven = 4 ∧ 1 ≤ q.anglesGiven ∧ q.anglesGiven ≤ 4 then true
      else if q.sidesGiven = 3 ∧ 2 ≤ q.anglesGiven ∧ q.anglesGiven ≤ 4 then
        q.has_adjacent_angles
      else false) = true
  case neg =>
    rw [if_pos hs] at h
    exact absurd h (by simp)
  case pos =>
    rw [if_neg (not_not_intro hs)] at h
    rcases hc : calculate_missing_angles q with ⟨o, q1⟩
    rw [hc] at h
    cases o with
    | some e0 =>
      dsimp only [] at h
      exact absurd h (by simp)
    | none =>
      dsimp only [] at h
      rcases construct_quadrilateral_cases q1 with
        ⟨qm, heq, hqa, hqb, hqc, hqd⟩ | ⟨e1, qe, heq, -, -, -, -, -⟩
      · rw [heq] at h
        injection h with h1 h2
        subst h2
        obtain ⟨⟨ca, cb, cc, cd⟩, pa, pb, pc, pd⟩ := calculate_angles_from_vertices_spec qm
        refine ⟨⟨ca, cb, cc, cd⟩, ?_⟩
        intro h3
        obtain ⟨⟨sa, sb, sc, sd⟩, hsum⟩ :=
          calculate_missing_angles_success_three_le q q1 h3 hc
        have ea : (calculate_angles_from_vertices qm).angle_a = q1.angle_a :=
          (pa (by rw [hqa]; exact sa)).trans hqa
        have eb : (calculate_angles_from_vertices qm).angle_b = q1.angle_b :=
          (pb (by rw [hqb]; exact sb)).trans hqb
        have ec : (calculate_angles_from_vertices qm).angle_c = q1.angle_c :=
          (pc (by rw [hqc]; exact sc)).trans hqc
        have ed : (calculate_angles_from_vertices qm).angle_d = q1.angle_d :=
          (pd (by rw [hqd]; exact sd)).trans hqd
        rw [angleSum_congr ea eb ec ed]
        exact hsum
      · rw [heq] at h
        exact absurd h (by simp)

/-- Evaluation helper: the rounded distance of two points whose squared
distance is a perfect square. -/
theorem distance_um_eval (p1 p2 : Point) (n : ℕ)
    (h : (p2.x - p1.x) * (p2.x - p1.x) + (p2.y - p1.y) * (p2.y - p1.y) = (n : ℝ) ^ 2) :
    distance_um p1 p2 = (n : ℤ) := by
  unfold distance_um
  simp only []
  rw [h, Real.sqrt_sq (by positivity)]
  rw [show ((n : ℝ)) = (((n : ℤ) : ℝ)) by push_cast; ring, round_intCast]

/-- Evaluation helper: when the two edge vectors at a vertex are
orthogonal (zero dot product) and not collinear (nonzero cross
product), the interior angle is exactly 90°. -/
theorem calculate_interior_angle_perp (prev vertex next : Point)
    (hdot : (prev.x - vertex.x) * (next.x - vertex.x) +
      (prev.y - vertex.y) * (next.y - vertex.y) = 0)
    (hcross : (prev.x - vertex.x) * (next.y - vertex.y) -
      (prev.y - vertex.y) * (next.x - vertex.x) ≠ 0) :
    calculate_interior_angle prev vertex next = 90 := by
  unfold calculate_interior_angle atan2
  simp only []
  rw [hdot]
  have habs : |Complex.arg ⟨0, (prev.x - vertex.x) * (next.y - vertex.y) -
      (prev.y - vertex.y) * (next.x - vertex.x)⟩| = π / 2 := by
    rcases lt_or_gt_of_ne hcross with hneg | hpos
    · rw [Complex.arg_eq_neg_pi_div_two_iff.mpr ⟨rfl, hneg⟩]
      rw [abs_neg, abs_of_pos (by positivity)]
    · rw [Complex.arg_eq_pi_div_two_iff.mpr ⟨rfl, hpos⟩]
      rw [abs_of_pos (by positivity)]
  rw [habs]
  have h90 : π / 2 * 180 / π = 90 := by
    field_simp
    ring
  rw [h90]
  norm_num

/-- Example A of the specification: AB = 100 mm, BC = 80 mm, DA = 80 mm
(side CD unset), angle A = angle B = 90°, angles C and D unset. -/
def exampleRectangle : Quadrilateral :=
  { v0 := ⟨0, 0⟩, v1 := ⟨0, 0⟩, v2 := ⟨0, 0⟩, v3 := ⟨0, 0⟩
    side_ab_um := some 100000, side_bc_um := some 80000
    side_cd_um := none, side_da_um := some 80000
    angle_a := some 90, angle_b := some 90, angle_c := none, angle_d := none }

/-- The fully solved state of Example A. -/
def exampleRectangleSolved : Quadrilateral :=
  { v0 := ⟨0, 0⟩, v1 := ⟨100000, 0⟩, v2 := ⟨100000, 80000⟩, v3 := ⟨0, 80000⟩
    side_ab_um := some 100000, side_bc_um := some 80000
    side_cd_um := some 100000, side_da_um := some 80000
    angle_a := some 90, angle_b := some 90, angle_c := some 90, angle_d := some 90 }

/-- Full evaluation of `calculate` on Example A. -/
theorem exampleRectangle_eval :
    calculate exampleRectangle = (none, exampleRectangleSolved) := by
  rw [show calculate exampleRectangle =
    construct_from_ab_bc_da_angles_a_b exampleRectangle from rfl]
  unfold construct_from_ab_bc_da_angles_a_b
  simp only [exampleRectangle, Option.getD_some]
  rw [cos_deg90, sin_deg90,
    show ((180 : ℝ) - 90) * π / 180 = 90 * π / 180 by norm_num,
    cos_deg90, sin_deg90]
  norm_num
  rw [distance_um_eval ⟨100000, 80000⟩ ⟨0, 80000⟩ 100000 (by norm_num)]
  unfold calculate_angles_from_vertices
  norm_num
  rw [calculate_interior_angle_perp ⟨100000, 0⟩ ⟨100000, 80000⟩ ⟨0, 80000⟩
    (by norm_num) (by norm_num)]
  rw [calculate_interior_angle_perp ⟨100000, 80000⟩ ⟨0, 80000⟩ ⟨0, 0⟩
    (by norm_num) (by norm_num)]
  norm_num [exampleRectangleSolved, Quadrilateral.mk.injEq, Point.mk.injEq]

/-- C6: on Example A, `calculate` succeeds with side CD derived as
exactly 100000 µm (100 mm), derived angles C and D exactly 90°, and
vertices exactly (0,0), (100000,0), (100000,80000), (0,80000) in µm —
i.e. (0,0), (100,0), (100,80), (0,80) in mm. -/
theorem C6_example_rectangle :
    (calculate exampleRectangle).1 = none ∧
    (calculate exampleRectangle).2.side_cd_um = some 100000 ∧
    (calculate exampleRectangle).2.angle_c = some 90 ∧
    (calculate exampleRectangle).2.angle_d = some 90 ∧
    (calculate exampleRectangle).2.v0 = ⟨0, 0⟩ ∧
    (calculate exampleRectangle).2.v1 = ⟨100000, 0⟩ ∧
    (calculate exampleRectangle).2.v2 = ⟨100000, 80000⟩ ∧
    (calculate exampleRectangle).2.v3 = ⟨0, 80000⟩ := by
  rw [exampleRectangle_eval]
  exact ⟨rfl, rfl, rfl, rfl, rfl, rfl, rfl, rfl⟩

/-- Reflex input: AB = 100 mm, BC = DA = 80 mm, CD unset, with
user-given angles A = B = 270°. -/
def exampleReflex : Quadrilateral :=
  { v0 := ⟨0, 0⟩, v1 := ⟨0, 0⟩, v2 := ⟨0, 0⟩, v3 := ⟨0, 0⟩
    side_ab_um := some 100000, side_bc_um := some 80000
    side_cd_um := none, side_da_um := some 80000
    angle_a := some 270, angle_b := some 270, angle_c := none, angle_d := none }

/-- C7, counterexample: on `exampleReflex` the solver succeeds (the
3-side construction cannot fail once the input is accepted), keeps the
user-given angles A = B = 270°, derives C = D = 90° from the vertices,
and ends with an angle sum of 720°, far outside 0.5° of 360°. -/
theorem C7_counterexample :
    (calculate exampleReflex).1 = none ∧
    (calculate exampleReflex).2.angle_a = some 270 ∧
    (calculate exampleReflex).2.angle_b = some 270 ∧
    (calculate exampleReflex).2.angle_c = some 90 ∧
    (calculate exampleReflex).2.angle_d = some 90 ∧
    ¬ |(calculate exampleReflex).2.angleSum - 360| ≤ 0.5 := by
  rw [show calculate exampleReflex =
    construct_from_ab_bc_da_angles_a_b exampleReflex from rfl]
  unfold construct_from_ab_bc_da_angles_a_b
  simp only [exampleReflex, Option.getD_some]
  rw [cos_deg270, sin_deg270, cos_degm90, sin_degm90]
  norm_num
  rw [distance_um_eval ⟨100000, -80000⟩ ⟨0, -80000⟩ 100000 (by norm_num)]
  unfold calculate_angles_from_vertices
  norm_num
  rw [calculate_interior_angle_perp ⟨100000, 0⟩ ⟨100000, -80000⟩ ⟨0, -80000⟩
    (by norm_num) (by norm_num)]
  rw [calculate_interior_angle_perp ⟨100000, -80000⟩ ⟨0, -80000⟩ ⟨0, 0⟩
    (by norm_num) (by norm_num)]
  norm_num [Quadrilateral.angleSum, List.filterMap_cons, List.filterMap_nil,
    List.sum_cons, List.sum_nil]

/-- C7 witness: the successful run on Example A leaves all four angle
fields set. -/
theorem C7_angles_after_success_witness :
    (exampleRectangleSolved.angle_a.isSome = true ∧
     exampleRectangleSolved.angle_b.isSome = true ∧
     exampleRectangleSolved.angle_c.isSome = true ∧
     exampleRectangleSolved.angle_d.isSome = true) ∧
    (3 ≤ exampleRectangle.anglesGiven → |exampleRectangleSolved.angleSum - 360| ≤ 0.5) :=
  C7_angles_after_success exampleRectangle exampleRectangleSolved exampleRectangle_eval
